import Mathlib

/-!
Verification of the job-expansion and validation logic of
`v.vect.stats.multi.py` (GRASS GIS addon `v.vect.stats.multi`).

The Python module resolves the list of source columns (either the
user-supplied `points_columns` or all numeric columns of the points
map), validates the optional `stats_columns` name list, and then
dispatches one delegated `v.vect.stats` call per (column, method) pair
produced by `itertools.product(points_columns, methods)`, reporting
progress after each call and failing fast on the first error.

The definitions below are a shallow embedding of that script:
  * `sql_type_is_numeric` embeds the numeric-type classifier
    (lines 112-138 of the script);
  * `resolveColumns` embeds the column-resolution block
    (lines 146-182);
  * `checkStatsColumns` embeds the `stats_columns` validation
    (lines 185-215);
  * `makeJobs` and `dispatch` embed the enumeration and dispatch loop
    (lines 229-247), with delegated-call outcomes supplied by a
    test-double function `failsAt : Nat → Bool` and all externally
    observable actions (delegated calls, `gs.percent` signals)
    collected in an event trace;
  * `mainRun` composes these as `main` does and yields the trace and
    either exit status 0 or the fatal error.
-/

namespace VVectStatsMulti

/-- Integer SQL type names recognized by the script (line 112). -/
def SQL_INT_TYPES : List String :=
  ["INT", "INTEGER", "TINYINT", "SMALLINT", "MEDIUMINT", "BIGINT",
   "UNSIGNED BIG INT", "INT2", "INT8"]

/-- Floating-point SQL type names recognized by the script (line 124). -/
def SQL_FLOAT_TYPES : List String :=
  ["REAL", "DOUBLE", "DOUBLE PRECISION", "FLOAT", "FLOATING POINT"]

/-- All numeric SQL type names (line 132). -/
def SQL_NUMERIC_TYPES : List String := SQL_INT_TYPES ++ SQL_FLOAT_TYPES

/-- Python's `str.upper()` on the ASCII SQL type names, written by
structural recursion over the character list so that it evaluates by
kernel reduction. -/
def asciiUpper (s : String) : String :=
  String.mk (s.data.map Char.toUpper)

/-- Embeds `sql_type_is_numeric` (line 134): case-insensitive
membership in the numeric type table. -/
def sql_type_is_numeric (sql_type : String) : Bool :=
  SQL_NUMERIC_TYPES.contains (asciiUpper sql_type)

/-- The attribute-table metadata returned by `gs.vector_columns`:
an association list from column name to its declared SQL type
(only the `"type"` field of the per-column dict is used). -/
def TableColumns : Type := List (String × String)

/-- Python `input_vector_columns[name]`: first binding of `name`, if any. -/
def lookupCol (tbl : TableColumns) (name : String) : Option String :=
  (List.find? (fun p => p.1 == name) tbl).map (fun p => p.2)

/-- The fatal errors `main` can raise via `gs.fatal` (or by an uncaught
`KeyError`), each carrying the data reported in its message. -/
inductive RunError where
  | columnNotFound (name points_name points_layer : String)
  | nonNumericColumn (name points_name column_type : String)
  | nameCountMismatch (names_provided num_points_columns num_methods names_needed : Nat)
  | duplicateNames (names_provided num_unique_names : Nat)
  | keyError (name : String)
  | delegatedError (index : Nat)
  deriving Repr, DecidableEq

/-- Default branch of column resolution (lines 154-162): walk the
table's column names in native order and keep the numeric ones; an
absent name would raise an uncaught `KeyError`. -/
def collectNumeric (tbl : TableColumns) : List String → Except RunError (List String)
  | [] => Except.ok []
  | name :: rest =>
    match lookupCol tbl name with
    | none => Except.error (RunError.keyError name)
    | some column_type =>
      match collectNumeric tbl rest with
      | Except.error e => Except.error e
      | Except.ok tail =>
        if sql_type_is_numeric column_type then Except.ok (name :: tail)
        else Except.ok tail

/-- User-column validation loop (lines 163-182): each requested name
must be present and numeric; the first offender determines the error. -/
def checkUserColumns (tbl : TableColumns) (points_name points_layer : String) :
    List String → Except RunError Unit
  | [] => Except.ok ()
  | name :: rest =>
    match lookupCol tbl name with
    | none => Except.error (RunError.columnNotFound name points_name points_layer)
    | some column_type =>
      if sql_type_is_numeric column_type then
        checkUserColumns tbl points_name points_layer rest
      else
        Except.error (RunError.nonNumericColumn name points_name column_type)

/-- Column resolution (lines 146-182).  `points_columns = []` models an
absent/empty option (Python truthiness of the raw option string); a
supplied list is validated and used as-is, preserving its order. -/
def resolveColumns (points_columns : List String) (tbl : TableColumns)
    (all_column_names : List String) (points_name points_layer : String) :
    Except RunError (List String) :=
  if points_columns.isEmpty then
    collectNumeric tbl all_column_names
  else
    match checkUserColumns tbl points_name points_layer points_columns with
    | Except.error e => Except.error e
    | Except.ok _ => Except.ok points_columns

/-- Validation of `stats_columns` (lines 185-215).  An empty list models an
absent option.  The count check (line 190) runs before the uniqueness
check (line 205); `List.dedup` plays the role of Python's `set`. -/
def checkStatsColumns (stats_columns_names : List String)
    (num_points_columns num_methods : Nat) : Except RunError Unit :=
  let num_new_columns := num_points_columns * num_methods
  if stats_columns_names.isEmpty then Except.ok ()
  else
    let names_provided := stats_columns_names.length
    if names_provided ≠ num_new_columns then
      Except.error (RunError.nameCountMismatch names_provided
        num_points_columns num_methods num_new_columns)
    else
      let num_unique_names := stats_columns_names.dedup.length
      if names_provided ≠ num_unique_names then
        Except.error (RunError.duplicateNames names_provided num_unique_names)
      else Except.ok ()

/-- The per-pair data handed to one delegated `v.vect.stats` call
(lines 237-245): the method, the source column, and the output column. -/
structure Job where
  method : String
  points_column : String
  stats_column : String
  deriving Repr, DecidableEq

/-- Embeds `itertools.product(points_columns, methods)`: the rightmost element
advances on every iteration, so all methods for one column come before
the next column (comment at lines 229-231). -/
def pairs (points_columns methods : List String) : List (String × String) :=
  points_columns.flatMap (fun c => methods.map (fun m => (c, m)))

/-- The job built at enumeration index `p.1` for pair `p.2` (lines
233-236): output name taken from `stats_columns_names` when supplied,
otherwise the default `f"{points_column}_{method}"`. -/
def makeJob (stats_columns_names : List String) (p : Nat × (String × String)) : Job :=
  { method := p.2.2
    points_column := p.2.1
    stats_column :=
      if stats_columns_names.isEmpty then p.2.1 ++ "_" ++ p.2.2
      else stats_columns_names.getD p.1 "" }

/-- The full job batch, in enumeration order (line 232:
`enumerate(product(points_columns, methods))`). -/
def makeJobs (points_columns methods stats_columns_names : List String) : List Job :=
  (pairs points_columns methods).enum.map (makeJob stats_columns_names)

/-- Externally observable actions of the dispatch loop: a delegated
`v.vect.stats` call (line 237) and a `gs.percent i n 1` signal
(lines 246 and 247). -/
inductive Event where
  | call (job : Job)
  | percent (numerator denominator : Nat)
  deriving Repr, DecidableEq

/-- The delegated calls appearing in a trace, in order. -/
def callsOf : List Event → List Job
  | [] => []
  | Event.call j :: rest => j :: callsOf rest
  | Event.percent _ _ :: rest => callsOf rest

/-- The dispatch loop (lines 232-247) over the remaining jobs, starting
at enumeration index `i`.  `failsAt` is the test double for the
delegated command: if the call at index `i` fails, `errors="exit"`
aborts the run at once (result `some i`); on success `gs.percent i N 1`
is emitted and the loop continues; after the loop `gs.percent 1 1 1`
(line 247) is emitted unconditionally. -/
def dispatch (num_new_columns : Nat) (failsAt : Nat → Bool) :
    Nat → List Job → List Event × Option Nat
  | _, [] => ([Event.percent 1 1], none)
  | i, j :: rest =>
    if failsAt i then ([Event.call j], some i)
    else
      let r := dispatch num_new_columns failsAt (i + 1) rest
      (Event.call j :: Event.percent i num_new_columns :: r.1, r.2)

/-- The whole of `main` (lines 141-249) after option parsing: column
resolution, `stats_columns` validation, then the dispatch loop.  Lists
model the comma-split option values, with `[]` for an absent option.
Returns the event trace plus either the exit status 0 or the fatal
error that ended the run. -/
def mainRun (points_name points_layer : String)
    (points_columns methods stats_columns_names : List String)
    (tbl : TableColumns) (all_column_names : List String)
    (failsAt : Nat → Bool) : List Event × Except RunError Nat :=
  match resolveColumns points_columns tbl all_column_names points_name points_layer with
  | Except.error e => ([], Except.error e)
  | Except.ok cols =>
    match checkStatsColumns stats_columns_names cols.length methods.length with
    | Except.error e => ([], Except.error e)
    | Except.ok _ =>
      let num_new_columns := cols.length * methods.length
      let jobs := makeJobs cols methods stats_columns_names
      match dispatch num_new_columns failsAt 0 jobs with
      | (evs, some i) => (evs, Except.error (RunError.delegatedError i))
      | (evs, none) => (evs, Except.ok 0)

/-- Spec-side predicate: the table column `name` exists and its declared
SQL type is numeric (used to state the default-resolution claim). -/
def isNumericIn (tbl : TableColumns) (name : String) : Bool :=
  match lookupCol tbl name with
  | some column_type => sql_type_is_numeric column_type
  | none => false

/-! ## Helper lemmas -/

theorem pairs_nil (methods : List String) : pairs [] methods = [] := rfl

theorem pairs_cons (c : String) (cs methods : List String) :
    pairs (c :: cs) methods = methods.map (fun m => (c, m)) ++ pairs cs methods := rfl

theorem pairs_length (cols methods : List String) :
    (pairs cols methods).length = cols.length * methods.length := by
  induction cols with
  | nil => simp [pairs_nil]
  | cons c cs ih =>
    rw [pairs_cons, List.length_append, List.length_map, ih, List.length_cons,
      Nat.succ_mul]
    omega

theorem getElem?_eq_some_getD {α : Type _} (l : List α) (i : Nat) (d : α)
    (h : i < l.length) : l[i]? = some (l.getD i d) := by
  rw [List.getD_eq_getElem?_getD, List.getElem?_eq_getElem h]
  rfl

theorem pairs_getElem? (cols methods : List String) (i : Nat)
    (hi : i < cols.length * methods.length) :
    (pairs cols methods)[i]? =
      some (cols.getD (i / methods.length) "", methods.getD (i % methods.length) "") := by
  induction cols generalizing i with
  | nil => simp at hi
  | cons c cs ih =>
    have hm : 0 < methods.length := by
      rcases Nat.eq_zero_or_pos methods.length with h0 | h0
      · rw [h0, Nat.mul_zero] at hi; omega
      · exact h0
    rw [List.length_cons, Nat.succ_mul] at hi
    by_cases hlt : i < methods.length
    · rw [pairs_cons, List.getElem?_append_left (by simpa using hlt),
        List.getElem?_map, getElem?_eq_some_getD methods i "" hlt,
        Nat.div_eq_of_lt hlt, Nat.mod_eq_of_lt hlt]
      rfl
    · push_neg at hlt
      rw [pairs_cons, List.getElem?_append_right (by simpa using hlt),
        List.length_map, ih (i - methods.length) (by omega),
        Nat.div_eq_sub_div hm hlt, Nat.mod_eq_sub_mod hlt]
      rfl

theorem map_enumFrom_snd {α β : Type _} (f : α → β) (l : List α) (k : Nat) :
    (l.enumFrom k).map (fun p => f p.2) = l.map f := by
  induction l generalizing k with
  | nil => rfl
  | cons a as ih => simp [List.enumFrom, ih]

/-! ## C1 -/

/-- C1: for every resolved column list and method list (and any supplied
name list), job `i` of the batch pairs source column `i / |methods|`
with method `i % |methods|`, so all methods for the first column come
before any job for the second column; in particular for columns
`[c1, c2]` and methods `[m1, m2]` the job order is exactly
`(c1,m1), (c1,m2), (c2,m1), (c2,m2)`. -/
theorem jobs_enumerated_column_major
    (cols methods names : List String) (i : Nat)
    (hi : i < cols.length * methods.length) :
    ((makeJobs cols methods names)[i]?).map (fun j => (j.points_column, j.method)) =
      some (cols.getD (i / methods.length) "", methods.getD (i % methods.length) "") ∧
    (makeJobs ["c1", "c2"] ["m1", "m2"] []).map (fun j => (j.points_column, j.method)) =
      [("c1", "m1"), ("c1", "m2"), ("c2", "m1"), ("c2", "m2")] := by
  constructor
  · rw [makeJobs, List.getElem?_map, List.getElem?_enum,
      pairs_getElem? cols methods i hi]
    rfl
  · rfl

/-- Witness for C1 at columns `["a","b","c"]`, methods `["s","t"]`,
index 3 (= column 1, method 1). -/
theorem jobs_enumerated_column_major_witness :
    ((makeJobs ["a", "b", "c"] ["s", "t"] [])[3]?).map
        (fun j => (j.points_column, j.method)) = some ("b", "t") ∧
    (makeJobs ["c1", "c2"] ["m1", "m2"] []).map (fun j => (j.points_column, j.method)) =
      [("c1", "m1"), ("c1", "m2"), ("c2", "m1"), ("c2", "m2")] :=
  jobs_enumerated_column_major ["a", "b", "c"] ["s", "t"] [] 3 (by decide)

/-! ## C4 -/

/-- C4: when no `stats_columns` list is supplied, the output column
names of the batch are exactly `"{sourceColumn}_{method}"` for the
(column, method) pairs in enumeration order. -/
theorem default_stats_column_names (cols methods : List String) :
    (makeJobs cols methods []).map (fun j => j.stats_column) =
      (pairs cols methods).map (fun p => p.1 ++ "_" ++ p.2) := by
  rw [makeJobs, List.map_map]
  exact map_enumFrom_snd (fun p => p.1 ++ "_" ++ p.2) (pairs cols methods) 0

/-! ## C5 -/

theorem collectNumeric_eq_filter (tbl : TableColumns) (names : List String)
    (h : ∀ n ∈ names, (lookupCol tbl n).isSome = true) :
    collectNumeric tbl names = Except.ok (names.filter (isNumericIn tbl)) := by
  induction names with
  | nil => rfl
  | cons n rest ih =>
    obtain ⟨t, ht⟩ := Option.isSome_iff_exists.1 (h n (List.mem_cons_self n rest))
    have hrest := ih (fun m hm => h m (List.mem_cons_of_mem n hm))
    by_cases hb : sql_type_is_numeric t
    · simp [collectNumeric, ht, hrest, List.filter_cons, isNumericIn, hb]
    · simp [collectNumeric, ht, hrest, List.filter_cons, isNumericIn, hb]

/-- C5: with an empty/absent requested column list, the resolver
returns exactly the table's columns with a numeric SQL type, in the
table's native order. -/
theorem resolve_default_all_numeric (tbl : TableColumns)
    (all_column_names : List String) (points_name points_layer : String)
    (h : ∀ n ∈ all_column_names, (lookupCol tbl n).isSome = true) :
    resolveColumns [] tbl all_column_names points_name points_layer =
      Except.ok (all_column_names.filter (isNumericIn tbl)) := by
  rw [resolveColumns]
  exact collectNumeric_eq_filter tbl all_column_names h

/-- Witness for C5 on a three-column table with two numeric columns. -/
theorem resolve_default_all_numeric_witness :
    resolveColumns [] [("cat", "INTEGER"), ("name", "TEXT"), ("pop", "DOUBLE PRECISION")]
        ["cat", "name", "pop"] "pts" "1" =
      Except.ok ((["cat", "name", "pop"] : List String).filter
        (isNumericIn [("cat", "INTEGER"), ("name", "TEXT"), ("pop", "DOUBLE PRECISION")])) :=
  resolve_default_all_numeric
    [("cat", "INTEGER"), ("name", "TEXT"), ("pop", "DOUBLE PRECISION")]
    ["cat", "name", "pop"] "pts" "1" (by decide)

/-! ## C6 -/

theorem isNumericIn_elim (tbl : TableColumns) (m : String)
    (h : isNumericIn tbl m = true) :
    ∃ t, lookupCol tbl m = some t ∧ sql_type_is_numeric t = true := by
  rw [isNumericIn] at h
  cases hl : lookupCol tbl m with
  | none => rw [hl] at h; exact absurd h (by simp)
  | some t => rw [hl] at h; exact ⟨t, rfl, h⟩

theorem checkUserColumns_append_valid (tbl : TableColumns)
    (points_name points_layer : String) (pre rest : List String)
    (hpre : ∀ m ∈ pre, isNumericIn tbl m = true) :
    checkUserColumns tbl points_name points_layer (pre ++ rest) =
      checkUserColumns tbl points_name points_layer rest := by
  induction pre with
  | nil => rfl
  | cons m ms ih =>
    obtain ⟨t, ht, hnum⟩ := isNumericIn_elim tbl m (hpre m (List.mem_cons_self m ms))
    rw [List.cons_append, checkUserColumns, ht]
    simp only [hnum, if_true]
    exact ih (fun x hx => hpre x (List.mem_cons_of_mem m hx))

/-- C6 counterexample: requested columns `["t", "missing"]` against a
table holding only `t : TEXT`.  The name `missing` is absent from the
table, yet the resolver fails with the non-numeric-column error for
`t` (the first offender in request order), not with a
column-not-found error, refuting the claim that an absent requested
name yields a column-not-found failure. -/
theorem resolve_mixed_errors_cex :
    lookupCol [("t", "TEXT")] "missing" = none ∧
    "missing" ∈ (["t", "missing"] : List String) ∧
    resolveColumns ["t", "missing"] [("t", "TEXT")] ["t"] "pts" "1" =
      Except.error (RunError.nonNumericColumn "t" "pts" "TEXT") :=
  ⟨rfl, by decide, rfl⟩

/-- C6 (amended): the resolver validates requested names in the user's
requested order and fails on the first offending name — with a
column-not-found error if that name is absent from the table (naming
the map and layer), and with a non-numeric-column error if it is
present with a non-numeric SQL type (naming the column and its type);
when every requested name is present and numeric, the resolved list is
the requested list in the user's requested order. -/
theorem resolve_user_columns_first_offender (tbl : TableColumns)
    (all_column_names : List String) (points_name points_layer : String)
    (pre post : List String) (name : String)
    (hpre : ∀ m ∈ pre, isNumericIn tbl m = true) :
    (lookupCol tbl name = none →
      resolveColumns (pre ++ name :: post) tbl all_column_names points_name points_layer =
        Except.error (RunError.columnNotFound name points_name points_layer)) ∧
    (∀ t, lookupCol tbl name = some t → sql_type_is_numeric t = false →
      resolveColumns (pre ++ name :: post) tbl all_column_names points_name points_layer =
        Except.error (RunError.nonNumericColumn name points_name t)) ∧
    (∀ req : List String, req ≠ [] → (∀ m ∈ req, isNumericIn tbl m = true) →
      resolveColumns req tbl all_column_names points_name points_layer = Except.ok req) := by
  have hne : (pre ++ name :: post).isEmpty = false :=
    List.isEmpty_eq_false.mpr (by simp)
  have hskip := checkUserColumns_append_valid tbl points_name points_layer pre
    (name :: post) hpre
  refine ⟨?_, ?_, ?_⟩
  · intro habs
    rw [resolveColumns]
    simp only [hne, Bool.false_eq_true, if_false]
    rw [hskip, checkUserColumns, habs]
  · intro t ht hnn
    rw [resolveColumns]
    simp only [hne, Bool.false_eq_true, if_false]
    rw [hskip, checkUserColumns, ht]
    simp [hnn]
  · intro req hreq hval
    have hner : req.isEmpty = false := List.isEmpty_eq_false.mpr hreq
    have hok : checkUserColumns tbl points_name points_layer req = Except.ok () := by
      have := checkUserColumns_append_valid tbl points_name points_layer req [] hval
      rw [List.append_nil] at this
      rw [this]
      rfl
    rw [resolveColumns]
    simp only [hner, Bool.false_eq_true, if_false]
    rw [hok]

/-- Witness for the amended C6: prefix `["good"]` (numeric), offender
`"bad"` absent from the table, and the all-valid request `["good"]`. -/
theorem resolve_user_columns_first_offender_witness :
    (lookupCol [("good", "INT")] "bad" = none →
      resolveColumns (["good"] ++ "bad" :: ["x"]) [("good", "INT")] ["good"] "pts" "1" =
        Except.error (RunError.columnNotFound "bad" "pts" "1")) ∧
    (∀ t, lookupCol [("good", "INT")] "bad" = some t → sql_type_is_numeric t = false →
      resolveColumns (["good"] ++ "bad" :: ["x"]) [("good", "INT")] ["good"] "pts" "1" =
        Except.error (RunError.nonNumericColumn "bad" "pts" t)) ∧
    (∀ req : List String, req ≠ [] →
      (∀ m ∈ req, isNumericIn [("good", "INT")] m = true) →
      resolveColumns req [("good", "INT")] ["good"] "pts" "1" = Except.ok req) :=
  resolve_user_columns_first_offender [("good", "INT")] ["good"] "pts" "1"
    ["good"] ["x"] "bad" (by decide)

/-! ## C2 -/

/-- C2: when a `stats_columns` list is supplied whose length differs
from `N = |resolvedColumns| * |methods|`, the run fails with the
count-mismatch error carrying both the supplied and the required
counts, and no delegated call (and no other event) is issued. -/
theorem stats_count_mismatch_aborts (points_name points_layer : String)
    (points_columns methods stats_columns_names : List String)
    (tbl : TableColumns) (all_column_names : List String)
    (failsAt : Nat → Bool) (cols : List String)
    (hres : resolveColumns points_columns tbl all_column_names points_name points_layer =
      Except.ok cols)
    (hsup : stats_columns_names ≠ [])
    (hlen : stats_columns_names.length ≠ cols.length * methods.length) :
    mainRun points_name points_layer points_columns methods stats_columns_names
        tbl all_column_names failsAt =
      ([], Except.error (RunError.nameCountMismatch stats_columns_names.length
        cols.length methods.length (cols.length * methods.length))) ∧
    callsOf (mainRun points_name points_layer points_columns methods stats_columns_names
        tbl all_column_names failsAt).1 = [] := by
  have hne : stats_columns_names.isEmpty = false := List.isEmpty_eq_false.mpr hsup
  have hchk : checkStatsColumns stats_columns_names cols.length methods.length =
      Except.error (RunError.nameCountMismatch stats_columns_names.length
        cols.length methods.length (cols.length * methods.length)) := by
    rw [checkStatsColumns]
    simp [hne, hlen]
  constructor
  · simp only [mainRun, hres, hchk]
  · simp only [mainRun, hres, hchk, callsOf]

/-- Witness for C2: one resolved column, two methods, three supplied
names. -/
theorem stats_count_mismatch_aborts_witness :
    mainRun "pts" "1" ["c1"] ["m1", "m2"] ["a", "b", "c"] [("c1", "INT")] ["c1"]
        (fun _ => false) =
      ([], Except.error (RunError.nameCountMismatch 3 1 2 2)) ∧
    callsOf (mainRun "pts" "1" ["c1"] ["m1", "m2"] ["a", "b", "c"] [("c1", "INT")] ["c1"]
        (fun _ => false)).1 = [] := by
  have h := stats_count_mismatch_aborts "pts" "1" ["c1"] ["m1", "m2"] ["a", "b", "c"]
    [("c1", "INT")] ["c1"] (fun _ => false) ["c1"] rfl (by decide) (by decide)
  simpa using h

/-! ## C3 -/

/-- C3 counterexample: the supplied list `["a", "a", "a"]` contains a
duplicate (3 items, 1 distinct), but with 1 resolved column and 2
methods the required count is 2, and the run fails with the
count-mismatch error — not the duplicate-name error the claim
promises for every duplicated list. -/
theorem stats_duplicate_claim_cex :
    (["a", "a", "a"] : List String).length ≠ (["a", "a", "a"] : List String).dedup.length ∧
    mainRun "pts" "1" ["c1"] ["m1", "m2"] ["a", "a", "a"] [("c1", "INT")] ["c1"]
        (fun _ => false) =
      ([], Except.error (RunError.nameCountMismatch 3 1 2 2)) :=
  ⟨by decide, rfl⟩

/-- C3 (amended): when the supplied `stats_columns` list has the
required length `N = |resolvedColumns| * |methods|` but contains a
duplicate name, the run fails with the duplicate-name error reporting
the supplied and distinct counts, and no delegated call is issued. -/
theorem stats_duplicate_names_rejected (points_name points_layer : String)
    (points_columns methods stats_columns_names : List String)
    (tbl : TableColumns) (all_column_names : List String)
    (failsAt : Nat → Bool) (cols : List String)
    (hres : resolveColumns points_columns tbl all_column_names points_name points_layer =
      Except.ok cols)
    (hsup : stats_columns_names ≠ [])
    (hlen : stats_columns_names.length = cols.length * methods.length)
    (hdup : stats_columns_names.length ≠ stats_columns_names.dedup.length) :
    mainRun points_name points_layer points_columns methods stats_columns_names
        tbl all_column_names failsAt =
      ([], Except.error (RunError.duplicateNames stats_columns_names.length
        stats_columns_names.dedup.length)) ∧
    callsOf (mainRun points_name points_layer points_columns methods stats_columns_names
        tbl all_column_names failsAt).1 = [] := by
  have hne : stats_columns_names.isEmpty = false := List.isEmpty_eq_false.mpr hsup
  have hchk : checkStatsColumns stats_columns_names cols.length methods.length =
      Except.error (RunError.duplicateNames stats_columns_names.length
        stats_columns_names.dedup.length) := by
    rw [checkStatsColumns]
    simp [hne, hlen, hdup]
    omega
  constructor
  · simp only [mainRun, hres, hchk]
  · simp only [mainRun, hres, hchk, callsOf]

/-- Witness for the amended C3: one resolved column, two methods, and
the duplicated two-name list `["a", "a"]`. -/
theorem stats_duplicate_names_rejected_witness :
    mainRun "pts" "1" ["c1"] ["m1", "m2"] ["a", "a"] [("c1", "INT")] ["c1"]
        (fun _ => false) =
      ([], Except.error (RunError.duplicateNames 2 1)) ∧
    callsOf (mainRun "pts" "1" ["c1"] ["m1", "m2"] ["a", "a"] [("c1", "INT")] ["c1"]
        (fun _ => false)).1 = [] := by
  have h := stats_duplicate_names_rejected "pts" "1" ["c1"] ["m1", "m2"] ["a", "a"]
    [("c1", "INT")] ["c1"] (fun _ => false) ["c1"] rfl (by decide) (by decide) (by decide)
  simpa using h

/-! ## C7 -/

theorem dispatch_first_fail (N : Nat) (failsAt : Nat → Bool) :
    ∀ (jobs : List Job) (i k : Nat), failsAt (i + k) = true →
      (∀ j, j < k → failsAt (i + j) = false) → k < jobs.length →
      callsOf (dispatch N failsAt i jobs).1 = jobs.take (k + 1) ∧
      (dispatch N failsAt i jobs).2 = some (i + k) := by
  intro jobs
  induction jobs with
  | nil => intro i k _ _ hk; simp at hk
  | cons j rest ih =>
    intro i k hfail hbef hk
    cases k with
    | zero =>
      have h0 : failsAt i = true := by simpa using hfail
      simp [dispatch, h0, callsOf]
    | succ q =>
      have h0 : failsAt i = false := by simpa using hbef 0 (Nat.succ_pos q)
      have hfail' : failsAt (i + 1 + q) = true := by
        have he : i + 1 + q = i + (q + 1) := by omega
        rw [he]; exact hfail
      have hbef' : ∀ j, j < q → failsAt (i + 1 + j) = false := by
        intro j hj
        have he : i + 1 + j = i + (j + 1) := by omega
        rw [he]; exact hbef (j + 1) (by omega)
      have hk' : q < rest.length := by simpa using hk
      obtain ⟨hc, hr⟩ := ih (i + 1) q hfail' hbef' hk'
      refine ⟨?_, ?_⟩
      · simp [dispatch, h0, callsOf, hc]
      · simp only [dispatch, h0, Bool.false_eq_true, if_false, hr]
        congr 1
        omega

/-- C7: if the delegated call of job `k` is the first one to fail, the
issued delegated calls are exactly jobs `0 .. k` (so jobs `0 .. k-1`
were all dispatched before the failure and jobs `k+1 .. N-1` are never
dispatched), and the loop aborts reporting index `k`. -/
theorem dispatch_fail_fast (N : Nat) (failsAt : Nat → Bool) (jobs : List Job)
    (k : Nat) (hfail : failsAt k = true) (hbef : ∀ j, j < k → failsAt j = false)
    (hk : k < jobs.length) :
    callsOf (dispatch N failsAt 0 jobs).1 = jobs.take (k + 1) ∧
    (dispatch N failsAt 0 jobs).2 = some k := by
  have h := dispatch_first_fail N failsAt jobs 0 k (by simpa using hfail)
    (fun j hj => by simpa using hbef j hj) hk
  simpa using h

/-- Witness for C7: four default-named jobs, failure injected at
index 2 — the first three calls are issued, the fourth is not. -/
theorem dispatch_fail_fast_witness :
    callsOf (dispatch 4 (fun i => i == 2) 0
        (makeJobs ["pop", "income"] ["sum", "average"] [])).1 =
      (makeJobs ["pop", "income"] ["sum", "average"] []).take 3 ∧
    (dispatch 4 (fun i => i == 2) 0
        (makeJobs ["pop", "income"] ["sum", "average"] [])).2 = some 2 :=
  dispatch_fail_fast 4 (fun i => i == 2)
    (makeJobs ["pop", "income"] ["sum", "average"] []) 2 (by decide)
    (by decide) (by decide)

/-! ## C8 -/

theorem dispatch_all_ok (N : Nat) (failsAt : Nat → Bool) :
    ∀ (jobs : List Job) (i : Nat),
      (∀ j, j < jobs.length → failsAt (i + j) = false) →
      dispatch N failsAt i jobs =
        ((jobs.enumFrom i).flatMap
          (fun p => [Event.call p.2, Event.percent p.1 N]) ++ [Event.percent 1 1],
         none) := by
  intro jobs
  induction jobs with
  | nil => intro i _; simp [dispatch, List.enumFrom]
  | cons j rest ih =>
    intro i h
    have h0 : failsAt i = false := by simpa using h 0 (Nat.succ_pos rest.length)
    have h' : ∀ q, q < rest.length → failsAt (i + 1 + q) = false := by
      intro q hq
      have he : i + 1 + q = i + (q + 1) := by omega
      rw [he]; exact h (q + 1) (by simp only [List.length_cons]; omega)
    simp [dispatch, h0, ih (i + 1) h', List.enumFrom]

/-- C8 counterexample: a two-job batch with no failures.  The trace
shows that the progress signal emitted after job 0 succeeds is
`percent 0 2` — proportional to `i/N = 0` — whereas the claim demands
a signal proportional to `(i+1)/N = 1/2`; the numerator is `i`, not
`i + 1`. -/
theorem progress_signal_cex :
    (dispatch 2 (fun _ => false) 0
        [⟨"sum", "pop", "pop_sum"⟩, ⟨"average", "pop", "pop_average"⟩]).1 =
      [Event.call ⟨"sum", "pop", "pop_sum"⟩, Event.percent 0 2,
       Event.call ⟨"average", "pop", "pop_average"⟩, Event.percent 1 2,
       Event.percent 1 1] ∧
    Event.percent 0 2 ≠ Event.percent (0 + 1) 2 :=
  ⟨rfl, by decide⟩

/-- C8 (amended): after the delegated call for job `i` succeeds, the
dispatcher emits a progress signal proportional to `i/N` (namely
`gs.percent i N`), for every job of a batch whose delegated calls all
succeed, followed by the unconditional final `gs.percent 1 1`. -/
theorem progress_after_each_job (N : Nat) (failsAt : Nat → Bool)
    (jobs : List Job) (h : ∀ j, j < jobs.length → failsAt j = false) :
    (dispatch N failsAt 0 jobs).1 =
      jobs.enum.flatMap (fun p => [Event.call p.2, Event.percent p.1 N]) ++
        [Event.percent 1 1] := by
  rw [dispatch_all_ok N failsAt jobs 0 (fun j hj => by simpa using h j hj)]
  rfl

/-- Witness for the amended C8 on a concrete two-job batch. -/
theorem progress_after_each_job_witness :
    (dispatch 2 (fun _ => false) 0
        [⟨"sum", "pop", "pop_sum"⟩, ⟨"sum", "income", "income_sum"⟩]).1 =
      ([⟨"sum", "pop", "pop_sum"⟩, ⟨"sum", "income", "income_sum"⟩] : List Job).enum.flatMap
          (fun p => [Event.call p.2, Event.percent p.1 2]) ++
        [Event.percent 1 1] :=
  progress_after_each_job 2 (fun _ => false)
    [⟨"sum", "pop", "pop_sum"⟩, ⟨"sum", "income", "income_sum"⟩]
    (fun _ _ => rfl)

/-! ## C9 -/

/-- C9: for every run that passes validation and whose delegated calls
all succeed, the trace ends with the unconditional final
`gs.percent 1 1` (100%) signal — also when the batch is empty — and
the run returns exit status 0. -/
theorem final_percent_unconditional (points_name points_layer : String)
    (points_columns methods stats_columns_names : List String)
    (tbl : TableColumns) (all_column_names : List String)
    (failsAt : Nat → Bool) (cols : List String)
    (hres : resolveColumns points_columns tbl all_column_names points_name points_layer =
      Except.ok cols)
    (hchk : checkStatsColumns stats_columns_names cols.length methods.length =
      Except.ok ())
    (hok : ∀ j, j < (makeJobs cols methods stats_columns_names).length →
      failsAt j = false) :
    (mainRun points_name points_layer points_columns methods stats_columns_names
        tbl all_column_names failsAt).1.getLast? = some (Event.percent 1 1) ∧
    (mainRun points_name points_layer points_columns methods stats_columns_names
        tbl all_column_names failsAt).2 = Except.ok 0 := by
  have hd := dispatch_all_ok (cols.length * methods.length) failsAt
    (makeJobs cols methods stats_columns_names) 0 (fun j hj => by simpa using hok j hj)
  constructor
  · simp only [mainRun, hres, hchk, hd]
    exact List.getLast?_concat _
  · simp only [mainRun, hres, hchk, hd]

/-- Witness for C9 on the empty batch (`N = 0`): the trace is exactly
the final 100% signal. -/
theorem final_percent_unconditional_witness :
    (mainRun "pts" "1" [] ["sum"] [] [] [] (fun _ => false)).1.getLast? =
      some (Event.percent 1 1) ∧
    (mainRun "pts" "1" [] ["sum"] [] [] [] (fun _ => false)).2 = Except.ok 0 :=
  final_percent_unconditional "pts" "1" [] ["sum"] [] [] [] (fun _ => false) []
    rfl rfl (fun j hj => by simp [makeJobs, pairs] at hj)

/-! ## C10 -/

/-- C10: when the requested column list is empty and no table column is
numeric (and no `stats_columns` list is supplied), the resolved list is
empty, so the batch is empty: no delegated call is issued, the trace is
exactly the final 100% signal, and the run returns exit status 0. -/
theorem no_numeric_columns_success (points_name points_layer : String)
    (methods : List String) (tbl : TableColumns) (all_column_names : List String)
    (failsAt : Nat → Bool)
    (hpresent : ∀ n ∈ all_column_names, (lookupCol tbl n).isSome = true)
    (hnone : ∀ n ∈ all_column_names, isNumericIn tbl n = false) :
    resolveColumns [] tbl all_column_names points_name points_layer = Except.ok [] ∧
    mainRun points_name points_layer [] methods [] tbl all_column_names failsAt =
      ([Event.percent 1 1], Except.ok 0) := by
  have hfil : all_column_names.filter (isNumericIn tbl) = [] := by
    rw [List.filter_eq_nil_iff]
    intro a ha
    simp [hnone a ha]
  have hres : resolveColumns [] tbl all_column_names points_name points_layer =
      Except.ok [] := by
    rw [resolveColumns]
    rw [collectNumeric_eq_filter tbl all_column_names hpresent, hfil]
    rfl
  refine ⟨hres, ?_⟩
  simp only [mainRun, hres]
  rfl

/-- Witness for C10: a single-column table whose only column is of type
`TEXT`. -/
theorem no_numeric_columns_success_witness :
    resolveColumns [] [("name", "TEXT")] ["name"] "pts" "1" = Except.ok [] ∧
    mainRun "pts" "1" [] ["sum"] [] [("name", "TEXT")] ["name"] (fun _ => false) =
      ([Event.percent 1 1], Except.ok 0) :=
  no_numeric_columns_success "pts" "1" ["sum"] [("name", "TEXT")] ["name"]
    (fun _ => false) (by decide) (by decide)

end VVectStatsMulti
